import Mathlib

/-!
Shallow embedding of the buttplug device-core sources:
 - `lovense_connect_service_hardware.rs` (polling hardware implementation)
 - `btleplug_comm_manager.rs` (communication manager, task-bridging pattern)
 - `server/device/device/mod.rs` (ButtplugDevice entity)
Pure functions of the Rust source become Lean functions; the polling
monitoring task becomes a step function on an explicit state, driven by a
trace of query results; fallible operations return `Except`.
-/

namespace Buttplug

/-- Logical endpoints used by the sampled sources (`Endpoint::Tx`, `Endpoint::Rx`). -/
inductive Endpoint
  | Tx
  | Rx
  deriving DecidableEq, Repr

/-- Device-level error type; the two kinds constructed in the sampled sources. -/
inductive ButtplugDeviceError
  | DeviceNotAvailable (msg : String)
  | UnhandledCommand (msg : String)
  deriving DecidableEq, Repr

/-- The kind (class) of a `ButtplugDeviceError`, forgetting the message. -/
inductive ErrorKind
  | DeviceNotAvailableKind
  | UnhandledCommandKind
  deriving DecidableEq, Repr

def ButtplugDeviceError.kind : ButtplugDeviceError → ErrorKind
  | .DeviceNotAvailable _ => .DeviceNotAvailableKind
  | .UnhandledCommand _ => .UnhandledCommandKind

/-- `RawReading::new(index, endpoint, data)` from `core::messages`. -/
structure RawReading where
  index : Nat
  endpoint : Endpoint
  data : List Nat
  deriving DecidableEq, Repr

/-- Hardware event variants (`HardwareEvent`); the sampled polling source
only constructs `Disconnected(toy_id)`. -/
inductive HardwareEvent
  | Connected (address : String)
  | Disconnected (address : String)
  | Notification (address : String) (endpoint : Endpoint) (data : List Nat)
  deriving DecidableEq, Repr

/-- `HardwareReadCmd { endpoint, length, timeout_ms }`: argument of `read_value`. -/
structure HardwareReadCmd where
  endpoint : Endpoint
  length : Nat
  timeout_ms : Nat
  deriving DecidableEq, Repr

/-- `HardwareWriteCmd { endpoint, data, write_with_response }`: argument of `write_value`. -/
structure HardwareWriteCmd where
  endpoint : Endpoint
  data : List Nat
  write_with_response : Bool
  deriving DecidableEq, Repr

/-- `HardwareSubscribeCmd { endpoint }`: argument of `subscribe`. -/
structure HardwareSubscribeCmd where
  endpoint : Endpoint
  deriving DecidableEq, Repr

/-- `HardwareUnsubscribeCmd { endpoint }`: argument of `unsubscribe`. -/
structure HardwareUnsubscribeCmd where
  endpoint : Endpoint
  deriving DecidableEq, Repr

/-- Modelled from the spec: the toy record returned by the external Lovense
Connect service (`LovenseServiceToyInfo`, declared in
`lovense_connect_service_comm_manager.rs`, which is not among the sampled
sources). The sampled hardware file reads its `id`, `connected` and
`battery` fields; `battery` is a signed integer that the source clamps into
[0,100] before storing into an 8-bit atomic. -/
structure LovenseServiceToyInfo where
  id : String
  name : String
  connected : Bool
  battery : Int
  deriving DecidableEq, Repr

/-- Modelled from the spec: the result of one `get_local_info(host)` query of
the external polling service — `None` when the query fails, otherwise a map
of toys, iterated as `for (_, toy) in info.data.iter()`. -/
abbrev LovenseQueryResult : Type := Option (List (String × LovenseServiceToyInfo))

/-- State of one `LovenseServiceHardware` together with its spawned
monitoring task: the shared `AtomicU8` battery cache, whether the spawned
polling loop is still running, and how many `get_local_info` queries the
loop has issued so far. -/
structure LovenseServiceHardwareState where
  battery_level : Nat
  taskRunning : Bool
  pollCount : Nat
  deriving DecidableEq, Repr

/-- Rust `i.clamp(0, 100)` on the raw battery value: below the range gives 0,
above gives 100, otherwise the value itself. -/
def clampBattery (i : Int) : Int :=
  if i < 0 then 0 else if i > 100 then 100 else i

/-- The `for (_, toy) in info.data.iter()` body of the monitoring loop in
`LovenseServiceHardware::new`: skip toys whose id differs; at the first
matching toy, if it is not connected send `Disconnected` and `break` (which
exits only this `for` loop — the outer polling `loop` keeps running),
otherwise store the clamped battery and `break`. Returns the updated state
and the events sent. -/
def scanToys (toy_id : String) (st : LovenseServiceHardwareState) :
    List (String × LovenseServiceToyInfo) →
    LovenseServiceHardwareState × List HardwareEvent
  | [] => (st, [])
  | (_, toy) :: rest =>
    if toy.id ≠ toy_id then
      scanToys toy_id st rest
    else if !toy.connected then
      (st, [HardwareEvent.Disconnected toy_id])
    else
      ({ st with battery_level := (clampBattery toy.battery).toNat }, [])

/-- One iteration of the monitoring loop spawned by
`LovenseServiceHardware::new`, driven by the result of the
`get_local_info` query for this iteration. A terminated task performs no
query and no work; a running task issues one query (counted in
`pollCount`): on `None` it sends `Disconnected` and `break`s out of the
outer loop (terminating), on `Some info` it runs the `for` body. -/
def pollOnce (toy_id : String) (st : LovenseServiceHardwareState)
    (query : LovenseQueryResult) :
    LovenseServiceHardwareState × List HardwareEvent :=
  if !st.taskRunning then
    (st, [])
  else
    let st := { st with pollCount := st.pollCount + 1 }
    match query with
    | some data => scanToys toy_id st data
    | none => ({ st with taskRunning := false }, [HardwareEvent.Disconnected toy_id])

/-- The monitoring loop run against a trace of query results: each running
iteration consumes the next result the service would return. Returns the
final state and all events sent, in order. -/
def pollRun (toy_id : String) (st : LovenseServiceHardwareState) :
    List LovenseQueryResult → LovenseServiceHardwareState × List HardwareEvent
  | [] => (st, [])
  | q :: qs =>
    let step := pollOnce toy_id st q
    let rest := pollRun toy_id step.1 qs
    (rest.1, step.2 ++ rest.2)

/-- State created by `LovenseServiceHardware::new`:
`AtomicU8::new(100)` for the battery cache, with the monitoring task just
spawned (running, no query issued yet). -/
def LovenseServiceHardware.initState : LovenseServiceHardwareState :=
  { battery_level := 100, taskRunning := true, pollCount := 0 }

/-- `LovenseServiceHardware::disconnect`: resolves immediately to `Ok(())`
without touching any state. -/
def LovenseServiceHardware.disconnect (st : LovenseServiceHardwareState) :
    LovenseServiceHardwareState × Except ButtplugDeviceError Unit :=
  (st, Except.ok ())

/-- `LovenseServiceHardware::read_value`: ignores its command argument and
returns `RawReading::new(0, Endpoint::Rx, vec![battery_level.load()])` from
the cached atomic, issuing no query to the external service (the function
does not take a query result). -/
def LovenseServiceHardware.read_value (st : LovenseServiceHardwareState)
    (_msg : HardwareReadCmd) : Except ButtplugDeviceError RawReading :=
  Except.ok { index := 0, endpoint := Endpoint.Rx, data := [st.battery_level] }

/-- `LovenseServiceHardware::write_value`: issues one outbound HTTP GET,
whose outcome is supplied as the oracle `httpOk`; a failed call surfaces as
`UnhandledCommand` carrying the HTTP error text. -/
def LovenseServiceHardware.write_value (httpOk : Bool) (httpErr : String)
    (st : LovenseServiceHardwareState) (_msg : HardwareWriteCmd) :
    LovenseServiceHardwareState × Except ButtplugDeviceError Unit :=
  if httpOk then
    (st, Except.ok ())
  else
    (st, Except.error (ButtplugDeviceError.UnhandledCommand httpErr))

/-- `LovenseServiceHardware::subscribe`: immediately
`Err(UnhandledCommand("Lovense Connect does not support subscribe"))`,
with no state change. -/
def LovenseServiceHardware.subscribe (st : LovenseServiceHardwareState)
    (_msg : HardwareSubscribeCmd) :
    LovenseServiceHardwareState × Except ButtplugDeviceError Unit :=
  (st, Except.error
    (ButtplugDeviceError.UnhandledCommand "Lovense Connect does not support subscribe"))

/-- `LovenseServiceHardware::unsubscribe`: immediately
`Err(UnhandledCommand("Lovense Connect does not support unsubscribe"))`,
with no state change. -/
def LovenseServiceHardware.unsubscribe (st : LovenseServiceHardwareState)
    (_msg : HardwareUnsubscribeCmd) :
    LovenseServiceHardwareState × Except ButtplugDeviceError Unit :=
  (st, Except.error
    (ButtplugDeviceError.UnhandledCommand "Lovense Connect does not support unsubscribe"))

/-- Modelled from the spec: the protocol-attributes identifier component of a
device identity (declared in the configuration module, which is not among
the sampled sources); the spec treats it as an opaque identifier compared
for equality. -/
inductive ProtocolAttributesIdentifier
  | Default
  | Identifier (name : String)
  deriving DecidableEq, Repr

/-- Derived `PartialEq` for `ProtocolAttributesIdentifier`: same variant with
equal payloads. -/
def ProtocolAttributesIdentifier.beq :
    ProtocolAttributesIdentifier → ProtocolAttributesIdentifier → Bool
  | .Default, .Default => true
  | .Identifier a, .Identifier b => a == b
  | _, _ => false

/-- Modelled from the spec: `ProtocolDeviceIdentifier` — the immutable tuple
(transport address, protocol identifier string, protocol-attributes
identifier) that identifies a device; declared in the configuration module,
which is not among the sampled sources, and constructed in the sampled
`ButtplugDevice::new` as
`ProtocolDeviceIdentifier::new(address, protocol_id, attributes_id)`. -/
structure ProtocolDeviceIdentifier where
  address : String
  protocol : String
  attributes_identifier : ProtocolAttributesIdentifier
  deriving DecidableEq, Repr

/-- Derived `PartialEq` for `ProtocolDeviceIdentifier`: field-wise equality. -/
def ProtocolDeviceIdentifier.beq (a b : ProtocolDeviceIdentifier) : Bool :=
  a.address == b.address && a.protocol == b.protocol &&
    a.attributes_identifier.beq b.attributes_identifier

/-- `RawSubscribeCmd::new(device_index, endpoint)` from `core::messages`. -/
structure RawSubscribeCmd where
  device_index : Nat
  endpoint : Endpoint
  deriving DecidableEq, Repr

/-- The client-command union; the sampled `ButtplugDevice::name` constructs
only the `RawSubscribeCmd` variant (as an arbitrary raw probe command). -/
inductive ButtplugDeviceCommandMessageUnion
  | RawSubscribeCmd (cmd : Buttplug.RawSubscribeCmd)
  deriving DecidableEq, Repr

/-- Top-level error type returned by `supports_message`; opaque here. -/
structure ButtplugError where
  msg : String
  deriving DecidableEq, Repr

/-- The `ButtplugProtocol` trait surface consumed by `ButtplugDevice`: a
declared display name, the two identifier components, and the
`supports_message` capability check. -/
structure ButtplugProtocol where
  name : String
  protocol_identifier : String
  protocol_attributes_identifier : ProtocolAttributesIdentifier
  supports_message :
    ButtplugDeviceCommandMessageUnion → Except ButtplugError Unit

/-- The `DeviceImpl` surface read by `ButtplugDevice`: a name and an address. -/
structure DeviceImpl where
  name : String
  address : String
  deriving DecidableEq, Repr

/-- `ButtplugDevice`: one protocol instance, one (shared) device
implementation, a write-once display name (`OnceCell<String>`), and the
identifier frozen at construction. -/
structure ButtplugDevice where
  protocol : ButtplugProtocol
  device : DeviceImpl
  display_name : Option String
  device_identifier : ProtocolDeviceIdentifier

/-- `ButtplugDevice::new`: freezes the identifier from
(`device.address()`, `protocol.protocol_identifier()`,
`protocol.protocol_attributes_identifier()`) and starts with an empty
display-name cell. -/
def ButtplugDevice.new (protocol : ButtplugProtocol) (device : DeviceImpl) :
    ButtplugDevice :=
  { device_identifier :=
      { address := device.address
        protocol := protocol.protocol_identifier
        attributes_identifier := protocol.protocol_attributes_identifier }
    protocol := protocol
    device := device
    display_name := none }

/-- `PartialEq for ButtplugDevice`: compares only the device identifiers. -/
def ButtplugDevice.beq (d1 d2 : ButtplugDevice) : Bool :=
  ProtocolDeviceIdentifier.beq d1.device_identifier d2.device_identifier

/-- `Hash for ButtplugDevice`: feeds only `device_identifier()` to the
hasher; parametrized over the hasher's action on identifiers. -/
def ButtplugDevice.hashWith (hf : ProtocolDeviceIdentifier → UInt64)
    (d : ButtplugDevice) : UInt64 :=
  hf d.device_identifier

/-- The raw probe command used by `ButtplugDevice::name`:
`RawSubscribeCmd::new(1, Endpoint::Tx)`. -/
def rawProbeCmd : ButtplugDeviceCommandMessageUnion :=
  ButtplugDeviceCommandMessageUnion.RawSubscribeCmd
    { device_index := 1, endpoint := Endpoint.Tx }

/-- The fixed suffix appended by `ButtplugDevice::name` when raw mode is on. -/
def rawSuffix : String := " (Raw Messages Allowed)"

/-- `ButtplugDevice::name`: the protocol's declared name, with
`" (Raw Messages Allowed)"` appended iff `supports_message` succeeds on the
raw-subscribe probe. A pure capability check: no device state is touched. -/
def ButtplugDevice.name (d : ButtplugDevice) : String :=
  match d.protocol.supports_message rawProbeCmd with
  | Except.ok _ => d.protocol.name ++ " (Raw Messages Allowed)"
  | Except.error _ => d.protocol.name

/-- Modelled from the spec: the write-once display-name setter
(`OnceCell::set` semantics, §5: first successful set wins, subsequent
attempts are no-ops); the setter itself is not in the sampled sources, only
the cell and its getter are. -/
def ButtplugDevice.set_display_name (d : ButtplugDevice) (s : String) :
    ButtplugDevice :=
  match d.display_name with
  | some _ => d
  | none => { d with display_name := some s }

/-- Commands sent from the manager's public surface to its background task. -/
inductive BtleplugAdapterCommand
  | StartScanning
  | StopScanning
  deriving DecidableEq, Repr

/-- State of the bounded command channel between the manager and its
background task: `closed` once the task has exited (receiver dropped). -/
inductive ChannelState
  | opened
  | closed
  deriving DecidableEq, Repr

/-- `Sender::send(cmd).await`: succeeds iff the receiving task is still
alive; fails (rather than panicking or blocking forever) once the channel
is closed. -/
def channelSend (ch : ChannelState) (_cmd : BtleplugAdapterCommand) :
    Except Unit Unit :=
  match ch with
  | ChannelState.opened => Except.ok ()
  | ChannelState.closed => Except.error ()

/-- `BtlePlugCommunicationManager`: holds the sender side of the command
channel to its background task; here, the channel's state. -/
structure BtlePlugCommunicationManager where
  adapter_event_sender : ChannelState
  deriving DecidableEq, Repr

/-- `BtlePlugCommunicationManager::start_scanning`: clones the sender, sends
`StartScanning`, and maps a failed send to `DeviceNotAvailable`; a
successful send yields `Ok(())` without awaiting the command's effect. -/
def BtlePlugCommunicationManager.start_scanning
    (m : BtlePlugCommunicationManager) : Except ButtplugDeviceError Unit :=
  match channelSend m.adapter_event_sender BtleplugAdapterCommand.StartScanning with
  | Except.error _ => Except.error (ButtplugDeviceError.DeviceNotAvailable
      "Cannot send start scanning request to event loop.")
  | Except.ok _ => Except.ok ()

/-- `BtlePlugCommunicationManager::stop_scanning`: as `start_scanning`, with
`StopScanning`. -/
def BtlePlugCommunicationManager.stop_scanning
    (m : BtlePlugCommunicationManager) : Except ButtplugDeviceError Unit :=
  match channelSend m.adapter_event_sender BtleplugAdapterCommand.StopScanning with
  | Except.error _ => Except.error (ButtplugDeviceError.DeviceNotAvailable
      "Cannot send stop scanning request to event loop.")
  | Except.ok _ => Except.ok ()

/-- Allocation state for heap cells (`Arc::new`): the next fresh cell id. -/
structure AllocState where
  nextCell : Nat
  deriving DecidableEq, Repr

/-- A handle to one heap-allocated `AtomicBool` (`Arc<AtomicBool>`):
identified by its allocation cell, carrying its initial value. -/
structure AtomicBoolHandle where
  cell : Nat
  value : Bool
  deriving DecidableEq, Repr

/-- `BtlePlugCommunicationManager::scanning_status`:
`Arc::new(AtomicBool::new(false))` — allocates a fresh atomic boolean,
initialized to `false`, on every call, reading nothing from the manager. -/
def BtlePlugCommunicationManager.scanning_status
    (_m : BtlePlugCommunicationManager) (σ : AllocState) :
    AtomicBoolHandle × AllocState :=
  ({ cell := σ.nextCell, value := false }, { nextCell := σ.nextCell + 1 })

/-- Does the `for` body of the monitoring loop store a battery value for this
list of toys? True exactly when the first toy with a matching id is marked
connected (the only branch that writes the atomic). -/
def listStores (toy_id : String) : List (String × LovenseServiceToyInfo) → Bool
  | [] => false
  | (_, toy) :: rest =>
    if toy.id ≠ toy_id then listStores toy_id rest else toy.connected

/-- Does one query result lead the monitoring loop to store a battery value? -/
def queryStores (toy_id : String) : LovenseQueryResult → Bool
  | none => false
  | some data => listStores toy_id data

/-- Concrete toy for evaluating the monitoring loop: present in the query
result but not marked connected. -/
def c1Toy : LovenseServiceToyInfo :=
  { id := "toy-1", name := "Max", connected := false, battery := 50 }

/-- Concrete toy whose id differs from the monitored one: the monitored toy
is absent from a query result containing only this toy. -/
def c1AbsentToy : LovenseServiceToyInfo :=
  { id := "toy-2", name := "Nora", connected := true, battery := 80 }

/-- Concrete protocol whose declared name already ends in the raw suffix
while `supports_message` rejects the raw-subscribe probe. -/
def rawNamedProtocol : ButtplugProtocol :=
  { name := "Vibe (Raw Messages Allowed)"
    protocol_identifier := "vibe"
    protocol_attributes_identifier := ProtocolAttributesIdentifier.Default
    supports_message := fun _ => Except.error { msg := "raw not supported" } }

/-- Device built over `rawNamedProtocol`. -/
def rawNamedDevice : ButtplugDevice :=
  ButtplugDevice.new rawNamedProtocol { name := "Vibe", address := "addr-1" }

/-- Concrete protocol that accepts the raw-subscribe probe. -/
def rawOkProtocol : ButtplugProtocol :=
  { name := "Edge"
    protocol_identifier := "lovense"
    protocol_attributes_identifier := ProtocolAttributesIdentifier.Identifier "Edge"
    supports_message := fun _ => Except.ok () }

/-- Device built over `rawOkProtocol`. -/
def rawOkDevice : ButtplugDevice :=
  ButtplugDevice.new rawOkProtocol { name := "Edge", address := "addr-2" }

theorem clampBattery_toNat_le (i : Int) : (clampBattery i).toNat ≤ 100 := by
  unfold clampBattery
  split
  · simp
  · split
    · simp
    · omega

theorem scanToys_battery_le (toy_id : String) (st : LovenseServiceHardwareState)
    (data : List (String × LovenseServiceToyInfo)) (h : st.battery_level ≤ 100) :
    (scanToys toy_id st data).1.battery_level ≤ 100 := by
  induction data generalizing st with
  | nil => simpa [scanToys] using h
  | cons p rest ih =>
    obtain ⟨k, toy⟩ := p
    simp only [scanToys]
    split
    · exact ih st h
    · split
      · exact h
      · simpa using clampBattery_toNat_le toy.battery

theorem pollOnce_battery_le (toy_id : String) (st : LovenseServiceHardwareState)
    (q : LovenseQueryResult) (h : st.battery_level ≤ 100) :
    (pollOnce toy_id st q).1.battery_level ≤ 100 := by
  unfold pollOnce
  split
  · exact h
  · cases q with
    | some data => exact scanToys_battery_le _ _ _ h
    | none => simpa using h

theorem pollRun_battery_le (toy_id : String) (qs : List LovenseQueryResult)
    (st : LovenseServiceHardwareState) (h : st.battery_level ≤ 100) :
    (pollRun toy_id st qs).1.battery_level ≤ 100 := by
  induction qs generalizing st with
  | nil => simpa [pollRun] using h
  | cons q qs ih =>
    simp only [pollRun]
    exact ih _ (pollOnce_battery_le _ _ _ h)

theorem scanToys_battery_of_not_stores (toy_id : String)
    (st : LovenseServiceHardwareState) (data : List (String × LovenseServiceToyInfo))
    (h : listStores toy_id data = false) :
    (scanToys toy_id st data).1.battery_level = st.battery_level := by
  induction data generalizing st with
  | nil => simp [scanToys]
  | cons p rest ih =>
    obtain ⟨k, toy⟩ := p
    by_cases hid : toy.id ≠ toy_id
    · simp only [listStores, if_pos hid] at h
      simp only [scanToys, if_pos hid]
      exact ih st h
    · simp only [listStores, if_neg hid] at h
      simp [scanToys, if_neg hid, h]

theorem pollOnce_battery_of_not_stores (toy_id : String)
    (st : LovenseServiceHardwareState) (q : LovenseQueryResult)
    (h : queryStores toy_id q = false) :
    (pollOnce toy_id st q).1.battery_level = st.battery_level := by
  unfold pollOnce
  split
  · rfl
  · cases q with
    | some data =>
      exact scanToys_battery_of_not_stores _ _ _ (by simpa [queryStores] using h)
    | none => rfl

theorem pollRun_battery_of_not_stores (toy_id : String)
    (qs : List LovenseQueryResult) (st : LovenseServiceHardwareState)
    (h : ∀ q ∈ qs, queryStores toy_id q = false) :
    (pollRun toy_id st qs).1.battery_level = st.battery_level := by
  induction qs generalizing st with
  | nil => simp [pollRun]
  | cons q qs ih =>
    simp only [pollRun]
    rw [ih _ fun r hr => h r (List.mem_cons_of_mem _ hr)]
    exact pollOnce_battery_of_not_stores _ _ _ (h q (List.mem_cons_self _ _))

theorem attributesIdentifier_beq_iff
    (a b : ProtocolAttributesIdentifier) : a.beq b = true ↔ a = b := by
  cases a <;> cases b <;> simp [ProtocolAttributesIdentifier.beq]

theorem deviceIdentifier_beq_iff (a b : ProtocolDeviceIdentifier) :
    a.beq b = true ↔ a = b := by
  cases a
  cases b
  simp [ProtocolDeviceIdentifier.beq, attributesIdentifier_beq_iff,
    Bool.and_eq_true, and_assoc]

/-- C1: the monitoring loop of `LovenseServiceHardware::new`, evaluated on
concrete query traces. When the toy stays present but not connected for two
polls, the loop sends `Disconnected` twice and is still polling (the `break`
after the send only exits the inner `for`, contradicting the adjacent log
line about exiting the check loop); when the toy is absent from two
successful results, the loop sends nothing and is still polling; only a
failed query (`None`) produces the claimed single `Disconnected` followed by
termination with no further queries. -/
theorem C1_monitor_loop_eval :
    ((pollRun "toy-1" LovenseServiceHardware.initState
          [some [("k", c1Toy)], some [("k", c1Toy)]]).2
        = [HardwareEvent.Disconnected "toy-1", HardwareEvent.Disconnected "toy-1"]
      ∧ (pollRun "toy-1" LovenseServiceHardware.initState
          [some [("k", c1Toy)], some [("k", c1Toy)]]).1.taskRunning = true
      ∧ (pollRun "toy-1" LovenseServiceHardware.initState
          [some [("k", c1Toy)], some [("k", c1Toy)]]).1.pollCount = 2)
    ∧ ((pollRun "toy-1" LovenseServiceHardware.initState
          [some [("k", c1AbsentToy)], some [("k", c1AbsentToy)]]).2 = []
      ∧ (pollRun "toy-1" LovenseServiceHardware.initState
          [some [("k", c1AbsentToy)], some [("k", c1AbsentToy)]]).1.taskRunning = true)
    ∧ ((pollRun "toy-1" LovenseServiceHardware.initState [none, none]).2
        = [HardwareEvent.Disconnected "toy-1"]
      ∧ (pollRun "toy-1" LovenseServiceHardware.initState [none, none]).1.taskRunning
        = false
      ∧ (pollRun "toy-1" LovenseServiceHardware.initState [none, none]).1.pollCount
        = 1) := by
  decide

/-- C2 counterexample: two consecutive `scanning_status()` calls on the same
manager return distinct handles, so the returned handle is not one shared
observable. -/
theorem C2_counterexample :
    ¬ ((BtlePlugCommunicationManager.scanning_status
          { adapter_event_sender := ChannelState.opened } { nextCell := 0 }).1
        = (BtlePlugCommunicationManager.scanning_status
            { adapter_event_sender := ChannelState.opened }
            (BtlePlugCommunicationManager.scanning_status
              { adapter_event_sender := ChannelState.opened } { nextCell := 0 }).2).1) := by
  decide

/-- C2 (amended): every `scanning_status()` call allocates and returns a
fresh `AtomicBool` handle initialized to `false`, reading nothing from the
manager; consecutive calls return handles at distinct fresh cells. -/
theorem C2_status_fresh_per_call (m : BtlePlugCommunicationManager)
    (σ : AllocState) :
    (m.scanning_status σ).1.value = false
    ∧ (m.scanning_status σ).1.cell = σ.nextCell
    ∧ (m.scanning_status σ).2.nextCell = σ.nextCell + 1
    ∧ (m.scanning_status (m.scanning_status σ).2).1.cell = σ.nextCell + 1 :=
  ⟨rfl, rfl, rfl, rfl⟩

/-- C3 counterexample: a device whose protocol declares a name that already
ends in the raw suffix while `supports_message` rejects the raw-subscribe
probe — `name()` ends with the suffix although the probe fails, so the
claimed "ends with the suffix iff the probe succeeds" is false. -/
theorem C3_counterexample :
    (∃ pre, ButtplugDevice.name rawNamedDevice = pre ++ rawSuffix)
    ∧ rawNamedDevice.protocol.supports_message rawProbeCmd
        = Except.error { msg := "raw not supported" } := by
  exact ⟨⟨"Vibe", by decide⟩, rfl⟩

/-- C3 (amended): `name()` is the declared protocol name with the raw
suffix appended when the raw-subscribe probe succeeds, and exactly the
declared protocol name when it fails; hence, provided the declared name does
not itself end in the suffix, `name()` ends with the suffix iff the probe
succeeds. The probe is a pure capability check with no device effect. -/
theorem C3_raw_suffix_rule (d : ButtplugDevice) :
    (∀ u, d.protocol.supports_message rawProbeCmd = Except.ok u →
        ButtplugDevice.name d = d.protocol.name ++ rawSuffix)
    ∧ (∀ e, d.protocol.supports_message rawProbeCmd = Except.error e →
        ButtplugDevice.name d = d.protocol.name)
    ∧ ((¬ ∃ pre, d.protocol.name = pre ++ rawSuffix) →
        ((∃ pre, ButtplugDevice.name d = pre ++ rawSuffix)
          ↔ ∃ u, d.protocol.supports_message rawProbeCmd = Except.ok u)) := by
  refine ⟨?_, ?_, ?_⟩
  · intro u hu
    simp [ButtplugDevice.name, hu, rawSuffix]
  · intro e he
    simp [ButtplugDevice.name, he]
  · intro hn
    constructor
    · intro hpre
      cases h : d.protocol.supports_message rawProbeCmd with
      | ok u => exact ⟨u, rfl⟩
      | error e =>
        obtain ⟨pre, hpre⟩ := hpre
        rw [show ButtplugDevice.name d = d.protocol.name from
          by simp [ButtplugDevice.name, h]] at hpre
        exact absurd ⟨pre, hpre⟩ hn
    · intro hu
      obtain ⟨u, hu⟩ := hu
      exact ⟨d.protocol.name, by simp [ButtplugDevice.name, hu, rawSuffix]⟩

/-- C3 witness: the amended rule applied to a concrete device whose protocol
accepts the raw-subscribe probe. -/
theorem C3_raw_suffix_rule_witness :
    ButtplugDevice.name rawOkDevice = "Edge" ++ rawSuffix :=
  (C3_raw_suffix_rule rawOkDevice).1 () rfl

/-- C4: for any query trace from construction, the stored battery cache stays
within [0,100]; a poll whose first matching toy is connected stores exactly
the clamped raw battery value; `clamp` lands in [0,100] for every raw value;
and `read_value` answers from the cached scalar alone (its definition takes
no query input), returning the cached value unchanged. -/
theorem C4_battery_clamp_cached_read (toy_id : String)
    (qs : List LovenseQueryResult) :
    (pollRun toy_id LovenseServiceHardware.initState qs).1.battery_level ≤ 100
    ∧ (∀ b : Int, (clampBattery b).toNat ≤ 100)
    ∧ (∀ st k toy rest, toy.id = toy_id → toy.connected = true →
        (scanToys toy_id st ((k, toy) :: rest)).1.battery_level
          = (clampBattery toy.battery).toNat)
    ∧ (∀ st cmd, LovenseServiceHardware.read_value st cmd
        = Except.ok { index := 0, endpoint := Endpoint.Rx, data := [st.battery_level] }) := by
  refine ⟨pollRun_battery_le _ _ _ (by decide), clampBattery_toNat_le, ?_, fun st cmd => rfl⟩
  intro st k toy rest h1 h2
  simp [scanToys, h1, h2]

/-- C4 witness: a raw battery report of 999 from a connected matching toy is
stored as the clamped value 100. -/
theorem C4_battery_clamp_cached_read_witness :
    (scanToys "toy-1" LovenseServiceHardware.initState
        [("k", { id := "toy-1", name := "Max", connected := true, battery := 999 })]).1.battery_level
      = 100 :=
  (C4_battery_clamp_cached_read "toy-1" []).2.2.1
    LovenseServiceHardware.initState "k"
    { id := "toy-1", name := "Max", connected := true, battery := 999 } [] rfl rfl

/-- C5: when the command channel to the background task is closed (the task
has exited), `start_scanning` and `stop_scanning` both return the
`DeviceNotAvailable` error; when the send succeeds, both return `Ok(())`
without awaiting the effect of the command. Both are total functions of the
channel state: no panic and no unbounded wait. -/
theorem C5_channel_closed_failure (m : BtlePlugCommunicationManager) :
    (m.adapter_event_sender = ChannelState.closed →
      m.start_scanning = Except.error (ButtplugDeviceError.DeviceNotAvailable
          "Cannot send start scanning request to event loop.")
      ∧ m.stop_scanning = Except.error (ButtplugDeviceError.DeviceNotAvailable
          "Cannot send stop scanning request to event loop."))
    ∧ (m.adapter_event_sender = ChannelState.opened →
      m.start_scanning = Except.ok () ∧ m.stop_scanning = Except.ok ()) := by
  obtain ⟨ch⟩ := m
  cases ch with
  | opened =>
    constructor
    · intro hc
      cases hc
    · intro _
      exact ⟨rfl, rfl⟩
  | closed =>
    constructor
    · intro _
      exact ⟨rfl, rfl⟩
    · intro hc
      cases hc

/-- C5 witness: the failure half applied to a manager whose background task
has exited. -/
theorem C5_channel_closed_failure_witness :
    BtlePlugCommunicationManager.start_scanning
        { adapter_event_sender := ChannelState.closed }
      = Except.error (ButtplugDeviceError.DeviceNotAvailable
          "Cannot send start scanning request to event loop.") :=
  ((C5_channel_closed_failure { adapter_event_sender := ChannelState.closed }).1 rfl).1

/-- C6: two devices compare equal exactly when their frozen
`ProtocolDeviceIdentifier`s are equal, and hashing feeds only the identifier
to the hasher — protocol, hardware and display name play no part. -/
theorem C6_device_eq_iff_identifier (d1 d2 : ButtplugDevice)
    (hf : ProtocolDeviceIdentifier → UInt64) :
    (ButtplugDevice.beq d1 d2 = true ↔ d1.device_identifier = d2.device_identifier)
    ∧ ButtplugDevice.hashWith hf d1 = hf d1.device_identifier := by
  exact ⟨deviceIdentifier_beq_iff _ _, rfl⟩

/-- C7: `device_identifier()` is frozen at construction as the tuple
(hardware address, protocol identifier, protocol attributes identifier); the
display-name cell starts empty and setting a display name leaves the
identifier untouched. Repeated calls read the same stored field of an
otherwise-unmodified value. -/
theorem C7_identifier_frozen (p : ButtplugProtocol) (dev : DeviceImpl)
    (d : ButtplugDevice) (s : String) :
    (ButtplugDevice.new p dev).device_identifier
      = { address := dev.address
          protocol := p.protocol_identifier
          attributes_identifier := p.protocol_attributes_identifier }
    ∧ (d.set_display_name s).device_identifier = d.device_identifier
    ∧ (ButtplugDevice.new p dev).display_name = none := by
  refine ⟨rfl, ?_, rfl⟩
  obtain ⟨p0, dev0, dn, id0⟩ := d
  cases dn <;> rfl

/-- C8: `subscribe` and `unsubscribe` on the Lovense Connect transport fail
deterministically with `UnhandledCommand` for every command and every state,
leave the state exactly unchanged, and the two errors are of the same kind. -/
theorem C8_subscribe_unsubscribe_unhandled (st : LovenseServiceHardwareState)
    (sc : HardwareSubscribeCmd) (uc : HardwareUnsubscribeCmd) :
    LovenseServiceHardware.subscribe st sc
      = (st, Except.error (ButtplugDeviceError.UnhandledCommand
          "Lovense Connect does not support subscribe"))
    ∧ LovenseServiceHardware.unsubscribe st uc
      = (st, Except.error (ButtplugDeviceError.UnhandledCommand
          "Lovense Connect does not support unsubscribe"))
    ∧ (ButtplugDeviceError.UnhandledCommand
        "Lovense Connect does not support subscribe").kind
      = (ButtplugDeviceError.UnhandledCommand
          "Lovense Connect does not support unsubscribe").kind :=
  ⟨rfl, rfl, rfl⟩

/-- C9 counterexample: directly after `disconnect()` completes (returning
`Ok(())`), `read_value` still succeeds with the cached battery reading
instead of failing with a typed error. -/
theorem C9_counterexample :
    (LovenseServiceHardware.disconnect LovenseServiceHardware.initState).2
      = Except.ok ()
    ∧ LovenseServiceHardware.read_value
        (LovenseServiceHardware.disconnect LovenseServiceHardware.initState).1
        { endpoint := Endpoint.Rx, length := 1, timeout_ms := 500 }
      = Except.ok { index := 0, endpoint := Endpoint.Rx, data := [100] } :=
  ⟨rfl, rfl⟩

/-- C9 (amended): for this polling transport `disconnect()` is a no-op that
always resolves to `Ok(())` and changes no state; operations after
disconnect behave exactly as before it — in particular `read_value` still
succeeds from the cache and `write_value` still issues its network call. -/
theorem C9_disconnect_noop (st : LovenseServiceHardwareState)
    (rc : HardwareReadCmd) (wc : HardwareWriteCmd) (httpOk : Bool)
    (httpErr : String) :
    LovenseServiceHardware.disconnect st = (st, Except.ok ())
    ∧ LovenseServiceHardware.read_value
        (LovenseServiceHardware.disconnect st).1 rc
      = LovenseServiceHardware.read_value st rc
    ∧ LovenseServiceHardware.write_value httpOk httpErr
        (LovenseServiceHardware.disconnect st).1 wc
      = LovenseServiceHardware.write_value httpOk httpErr st wc :=
  ⟨rfl, rfl, rfl⟩

/-- C10: the battery cache is initialized to 100 at construction, and as long
as no poll has stored a value (the monitored toy never appeared connected in
a successful query), `read_value` answers with index 0, endpoint `Rx` and
the single byte 100, whatever endpoint the read command requests. -/
theorem C10_initial_battery_read (toy_id : String)
    (qs : List LovenseQueryResult) (cmd : HardwareReadCmd)
    (h : ∀ q ∈ qs, queryStores toy_id q = false) :
    LovenseServiceHardware.initState.battery_level = 100
    ∧ LovenseServiceHardware.read_value LovenseServiceHardware.initState cmd
        = Except.ok { index := 0, endpoint := Endpoint.Rx, data := [100] }
    ∧ LovenseServiceHardware.read_value
        (pollRun toy_id LovenseServiceHardware.initState qs).1 cmd
      = Except.ok { index := 0, endpoint := Endpoint.Rx, data := [100] } := by
  refine ⟨rfl, rfl, ?_⟩
  unfold LovenseServiceHardware.read_value
  rw [pollRun_battery_of_not_stores _ _ _ h]
  rfl

/-- C10 witness: a read on endpoint `Tx` after a failed poll and a poll with
an empty toy list still answers with the initial byte 100 on `Rx`. -/
theorem C10_initial_battery_read_witness :
    LovenseServiceHardware.read_value
        (pollRun "toy-1" LovenseServiceHardware.initState [none, some []]).1
        { endpoint := Endpoint.Tx, length := 4, timeout_ms := 500 }
      = Except.ok { index := 0, endpoint := Endpoint.Rx, data := [100] } :=
  (C10_initial_battery_read "toy-1" [none, some []]
    { endpoint := Endpoint.Tx, length := 4, timeout_ms := 500 } (by decide)).2.2

end Buttplug
